import Mathlib

/-!
Verification development for the UEVR plugin API header (`include/uevr/API.hpp`).

The header is a thin C++ wrapper over a table of host-exported function
pointers.  We embed the wrapper's control flow shallowly: host function
pointers become fields of Lean structures, buffers become lists, `nullptr`
becomes `none`/`Option`, and each wrapper operation additionally returns the
trace of host calls it performed so that call-count properties can be stated.
-/

namespace UEVR

/-- Writing `w` into a caller-allocated buffer `b` through a raw pointer:
the buffer keeps its length, the written characters overlay its prefix and
any excess written data is lost (the C++ `std::wstring`/`std::vector`
length is fixed by the size-query result before the fill call). -/
def overlayWrite {α : Type} : List α → List α → List α
  | _, [] => []
  | [], b => b
  | x :: xs, _ :: bs => x :: overlayWrite xs bs

/-- Model of the host `UEVR_FNameFunctions::to_string` function pointer,
specialised to one name handle (the wrapper always passes `to_handle()`).
`call dest destSize` returns the value the host returns (the required
character count) and the characters the host writes into `dest`
(`none` models a null destination pointer). -/
structure FNameFn where
  call : Option (List Char) → Nat → Nat × List Char

/-- `API::FName::to_string` (API.hpp lines 152-162): size query with
`(nullptr, 0)`; on zero return the empty string; otherwise allocate
`std::wstring result(size, L'\0')` and call again with `(result.data(),
size + 1)`.  Returns the resulting string together with the trace of calls
made through the function pointer, each recorded as
`(destination is null, size argument)`. -/
def FName.to_string (fn : FNameFn) : List Char × List (Bool × Nat) :=
  let size := (fn.call none 0).fst
  if size = 0 then
    ([], [(true, 0)])
  else
    let buf : List Char := List.replicate size (Char.ofNat 0)
    (overlayWrite (fn.call (some buf) (size + 1)).snd buf,
      [(true, 0), (false, size + 1)])

/-- One host call made by the class-level enumeration wrappers:
the `uobject_hook->activate` invocation, a
`uobject_hook->get_objects_by_class` invocation recorded as
`(buffer is null, capacity argument, allow_default argument)`, or a
`uobject_hook->get_first_object_by_class` invocation recorded with its
`allow_default` argument. -/
inductive HookCall where
  | activate : HookCall
  | query : Bool → Nat → Bool → HookCall
  | first : Bool → HookCall

/-- Model of the host `UEVR_UObjectHookFunctions` table, specialised to one
class handle.  `get_objects_by_class buffer capacity allow_default` returns
the count the host returns together with the object handles it writes into
the buffer (`none` models a null buffer); object handles are `Nat`, with
`0` playing the role of a null handle. -/
structure UObjectHook where
  get_objects_by_class : Option (List Nat) → Nat → Bool → Nat × List Nat
  get_first_object_by_class : Bool → Option Nat

/-- `API::UClass::get_objects_matching` (API.hpp lines 319-333): invoke
`activate_fn()`, size-query with `(nullptr, 0, allow_default)`; on zero
return the empty vector; otherwise `result.resize(size)` (null handles) and
fill with `(result.data(), size, allow_default)`, the fill call's return
value being discarded.  Returns the vector together with the trace of host
calls made. -/
def UClass.get_objects_matching (hook : UObjectHook) (allow_default : Bool) :
    List Nat × List HookCall :=
  let size := (hook.get_objects_by_class none 0 allow_default).fst
  if size = 0 then
    ([], [.activate, .query true 0 allow_default])
  else
    let buf : List Nat := List.replicate size 0
    (overlayWrite (hook.get_objects_by_class (some buf) size allow_default).snd buf,
      [.activate, .query true 0 allow_default, .query false size allow_default])

/-- `API::UClass::get_first_object_matching` (API.hpp lines 335-340):
invoke `activate_fn()`, then return
`get_first_object_by_class(to_handle(), allow_default)`.  Returns the
result together with the trace of host calls made. -/
def UClass.get_first_object_matching (hook : UObjectHook) (allow_default : Bool) :
    Option Nat × List HookCall :=
  ((hook.get_first_object_by_class allow_default), [.activate, .first allow_default])

/-- Whether a host call is an invocation of the activation operation. -/
def isActivate : HookCall → Bool
  | .activate => true
  | _ => false

/-- Number of activation invocations in a trace of host calls. -/
def activationCount (calls : List HookCall) : Nat :=
  calls.countP isActivate

/-- Model of the host object graph seen through the `UEVR_UObjectFunctions`
and `UEVR_FNameFunctions` tables.  Objects and names are handles (`Nat`);
`get_class` and `get_outer` may return `none` (a null pointer);
`get_fname` is the name handle of an object and `fname_text` the text the
host's name `to_string` produces for a name handle. -/
structure ObjGraph where
  get_class : Nat → Option Nat
  get_outer : Nat → Option Nat
  get_fname : Nat → Nat
  fname_text : Nat → List Char

/-- `obj->get_fname()->to_string()` for an object handle. -/
def fnameOf (g : ObjGraph) (o : Nat) : List Char :=
  g.fname_text (g.get_fname o)

/-- The loop of `API::UObject::get_full_name` (API.hpp lines 247-249):
`for (auto outer = this->get_outer(); outer != nullptr && outer != this;
outer = outer->get_outer())` prepending `outer->get_fname()->to_string()`
and `'.'` to the accumulated name.  `self` is the starting object (the
C++ `this`, fixed across the loop), `cur` the current outer, `acc` the
accumulated name.  The C++ loop has no bound; `fuel` bounds the embedding,
with `none` returned when the loop would still be running — a result
`some r` for some fuel means the loop terminates with result `r`. -/
def outerLoop (g : ObjGraph) (self : Nat) (fuel : Nat) (cur : Option Nat)
    (acc : List Char) : Option (List Char) :=
  match cur with
  | none => some acc
  | some o =>
    if o = self then some acc
    else
      match fuel with
      | 0 => none
      | f + 1 => outerLoop g self f (g.get_outer o) (fnameOf g o ++ '.' :: acc)

/-- `API::UObject::get_full_name` (API.hpp lines 238-252): if `get_class()`
is null return `L""`; otherwise start from the object's own name, run the
outer loop, and prefix the class's name and `L' '`. -/
def UObject.get_full_name (g : ObjGraph) (fuel : Nat) (obj : Nat) :
    Option (List Char) :=
  match g.get_class obj with
  | none => some []
  | some c =>
    match outerLoop g obj fuel (g.get_outer obj) (fnameOf g obj) with
    | none => none
    | some nm => some (fnameOf g c ++ ' ' :: nm)

/-- The nested per-kind tables of `UEVR_SDKData`, each a possibly-null
pointer modelled as an opaque `Option Nat`. -/
structure SDKData where
  functions : Option Nat
  uobject_array : Option Nat
  fname : Option Nat
  uobject : Option Nat
  ustruct : Option Nat
  uclass : Option Nat
  ufunction : Option Nat
  ffield : Option Nat
  fproperty : Option Nat
  ffield_class : Option Nat
  uobject_hook : Option Nat

/-- `UEVR_PluginInitializeParam`: the startup descriptor.  The wrapper only
ever reads its `sdk` field at construction time; the remaining fields are
opaque pointers.  `sdk` itself may be null. -/
structure PluginInitializeParam where
  uevr_module : Option Nat
  functions : Option Nat
  callbacks : Option Nat
  sdk : Option SDKData

/-- The `API` object: the constructor (API.hpp lines 70-74) stores the
descriptor pointer as `m_param` and reads the descriptor's `sdk` field
into `m_sdk`, performing no validation of either. -/
structure APIObj where
  m_param : PluginInitializeParam
  m_sdk : Option SDKData

/-- `API::API(param)`: `m_param{param}, m_sdk{param->sdk}`. -/
def mkAPI (p : PluginInitializeParam) : APIObj :=
  { m_param := p, m_sdk := p.sdk }

/-- `API::initialize` (API.hpp lines 47-58) acting on the singleton state
`s_instance`: throws "param is null" on a null descriptor, throws "API
already initialized" when the singleton exists, otherwise constructs the
singleton.  Returns the state after the call and the raised error, if any
(a throw leaves `s_instance` untouched). -/
def API.initialize (st : Option APIObj) (param : Option PluginInitializeParam) :
    Option APIObj × Option String :=
  match param with
  | none => (st, some "param is null")
  | some p =>
    match st with
    | some _ => (st, some "API already initialized")
    | none => (some (mkAPI p), none)

/-- `API::get` (API.hpp lines 61-67): throws "API not initialized" when the
singleton does not exist, otherwise returns it. -/
def API.get (st : Option APIObj) : Except String APIObj :=
  match st with
  | none => .error "API not initialized"
  | some inst => .ok inst

/-- A run of `n` wrapper operations of one entity kind against the kind's
function-table cache (`s_functions`, the per-kind lazy cache of e.g.
`API::FName::initialize`, API.hpp lines 164-172).  `sdkVal` is the kind's
table pointer in the descriptor, `cache` the current cache contents
(`none` is the null sentinel).  Each operation runs the cache logic: if
the cache is null it fetches `API::get()->sdk()-><kind>` (counted); every
wrapper operation immediately dereferences the resulting table pointer
(`initialize()-><member>`), so a null fetched table faults and the run
ends there.  Returns the final cache contents and the total number of
fetches performed. -/
def tableFetchRun (sdkVal : Option Nat) : Nat → Option Nat → Option Nat × Nat
  | 0, cache => (cache, 0)
  | n + 1, cache =>
    match cache with
    | some t => tableFetchRun sdkVal n (some t)
    | none =>
      match sdkVal with
      | none => (none, 1)
      | some t =>
        let r := tableFetchRun sdkVal n (some t)
        (r.fst, r.snd + 1)

/-- A name function whose size query returns 3 and which writes "abc". -/
def fnEx : FNameFn :=
  ⟨fun dest _ =>
    match dest with
    | none => (3, [])
    | some _ => (3, ['a', 'b', 'c'])⟩

/-- A name function whose size query returns 0. -/
def fnZero : FNameFn :=
  ⟨fun _ _ => (0, [])⟩

/-- A hook whose size query returns 2 and which fills handles 5, 6. -/
def hookEx : UObjectHook :=
  ⟨fun dest _ _ =>
    match dest with
    | none => (2, [])
    | some _ => (2, [5, 6]),
   fun _ => some 5⟩

/-- A hook with no matching objects. -/
def hookZero : UObjectHook :=
  ⟨fun _ _ _ => (0, []), fun _ => none⟩

/-- A hook whose fill call reports a count (999) different from the size
query's count (2) and writes more handles than the buffer holds. -/
def hookMismatch : UObjectHook :=
  ⟨fun dest _ _ =>
    match dest with
    | none => (2, [])
    | some _ => (999, [5, 6, 7]),
   fun _ => none⟩

/-- Outer chain A ← B ← C on handles 0, 1, 2 with class handle 3 for
object 2 and names "A", "B", "C", "K". -/
def gChain : ObjGraph :=
  { get_class := fun n => if n = 2 then some 3 else none,
    get_outer := fun n => if n = 2 then some 1 else if n = 1 then some 0 else none,
    get_fname := fun n => n,
    fname_text := fun n =>
      if n = 0 then ['A'] else if n = 1 then ['B'] else if n = 2 then ['C'] else ['K'] }

/-- An object (handle 0) that is its own outer, with class handle 1 and
names "C" and "K". -/
def gSelf : ObjGraph :=
  { get_class := fun n => if n = 0 then some 1 else none,
    get_outer := fun n => if n = 0 then some 0 else none,
    get_fname := fun n => n,
    fname_text := fun n => if n = 0 then ['C'] else ['K'] }

/-- A graph whose class lookup always fails. -/
def gNoClass : ObjGraph :=
  { get_class := fun _ => none,
    get_outer := fun _ => none,
    get_fname := fun n => n,
    fname_text := fun _ => [] }

end UEVR

namespace UEVR

theorem overlayWrite_length {α : Type} (w b : List α) :
    (overlayWrite w b).length = b.length := by
  induction w generalizing b with
  | nil => cases b <;> rfl
  | cons x xs ih =>
    cases b with
    | nil => rfl
    | cons y ys => simp [overlayWrite, ih]

/-- Claim C1: `to_string` first calls the name function pointer with a null
destination and zero length; if the returned count is zero it returns the
empty string after that single call; otherwise it makes exactly one more
call with a buffer of exactly `count` characters and size argument
`count + 1`, and the returned string's length equals the count from the
size-query phase. -/
theorem fname_to_string_two_call (fn : FNameFn) :
    ((fn.call none 0).fst = 0 →
      FName.to_string fn = ([], [(true, 0)])) ∧
    ((fn.call none 0).fst ≠ 0 →
      (FName.to_string fn).snd = [(true, 0), (false, (fn.call none 0).fst + 1)] ∧
      (FName.to_string fn).fst.length = (fn.call none 0).fst) := by
  constructor
  · intro h
    simp [FName.to_string, h]
  · intro h
    simp [FName.to_string, h, overlayWrite_length]

theorem fname_to_string_two_call_witness :
    FName.to_string fnZero = ([], [(true, 0)]) ∧
    ((FName.to_string fnEx).snd = [(true, 0), (false, 4)] ∧
      (FName.to_string fnEx).fst.length = 3) :=
  ⟨(fname_to_string_two_call fnZero).1 rfl,
   (fname_to_string_two_call fnEx).2 (by decide)⟩

/-- Claim C2: `get_objects_matching` first size-queries the enumeration
operation with a null buffer and zero capacity; a zero count yields the
empty vector with no fill call; otherwise exactly two calls to the
enumeration operation are made (the size query, then a fill with the
obtained count as capacity) and the returned vector has exactly that many
elements. -/
theorem get_objects_matching_two_call (hook : UObjectHook) (allow : Bool) :
    ((hook.get_objects_by_class none 0 allow).fst = 0 →
      UClass.get_objects_matching hook allow =
        ([], [.activate, .query true 0 allow])) ∧
    ((hook.get_objects_by_class none 0 allow).fst ≠ 0 →
      (UClass.get_objects_matching hook allow).snd =
        [.activate, .query true 0 allow,
          .query false (hook.get_objects_by_class none 0 allow).fst allow] ∧
      (UClass.get_objects_matching hook allow).fst.length =
        (hook.get_objects_by_class none 0 allow).fst) := by
  constructor
  · intro h
    simp [UClass.get_objects_matching, h]
  · intro h
    simp [UClass.get_objects_matching, h, overlayWrite_length]

theorem get_objects_matching_two_call_witness :
    UClass.get_objects_matching hookZero false =
      ([], [.activate, .query true 0 false]) ∧
    ((UClass.get_objects_matching hookEx false).snd =
        [.activate, .query true 0 false, .query false 2 false] ∧
      (UClass.get_objects_matching hookEx false).fst.length = 2) :=
  ⟨(get_objects_matching_two_call hookZero false).1 rfl,
   (get_objects_matching_two_call hookEx false).2 (by decide)⟩

/-- Claim C9: the count returned by the fill call is discarded — whenever
the size query returns a nonzero count N, the returned vector has length
exactly N; nothing in the theorem constrains what the fill call reports. -/
theorem fill_count_discarded (hook : UObjectHook) (allow : Bool)
    (h : (hook.get_objects_by_class none 0 allow).fst ≠ 0) :
    (UClass.get_objects_matching hook allow).fst.length =
      (hook.get_objects_by_class none 0 allow).fst := by
  simp [UClass.get_objects_matching, h, overlayWrite_length]

theorem fill_count_discarded_witness :
    (UClass.get_objects_matching hookMismatch true).fst.length = 2 :=
  fill_count_discarded hookMismatch true (by decide)

theorem activation_count_append (xs ys : List HookCall) :
    activationCount (xs ++ ys) = activationCount xs + activationCount ys := by
  simp [activationCount, List.countP_append]

/-- Claim C7, counterexample: the claim says subsequent enumeration calls
do not invoke the activation operation again, but two successive
`get_objects_matching` calls produce two activation invocations. -/
theorem activation_once_counterexample :
    ¬ (activationCount ((UClass.get_objects_matching hookEx true).snd ++
        (UClass.get_objects_matching hookEx true).snd) ≤ 1) := by
  decide

/-- Claim C7, amended: only the activation function pointer is cached
lazily; the activation operation itself is invoked once at the start of
every enumeration call (`get_objects_matching` and
`get_first_object_matching`), before the size query, not only before the
first one. -/
theorem activation_every_call (hook : UObjectHook) (allow : Bool) :
    activationCount (UClass.get_objects_matching hook allow).snd = 1 ∧
    (UClass.get_objects_matching hook allow).snd.head? = some .activate ∧
    activationCount (UClass.get_first_object_matching hook allow).snd = 1 ∧
    (UClass.get_first_object_matching hook allow).snd.head? = some .activate := by
  unfold UClass.get_objects_matching UClass.get_first_object_matching
  by_cases h : (hook.get_objects_by_class none 0 allow).fst = 0 <;>
    simp [h, activationCount, isActivate]

/-- Claim C3: for an object `c` whose outer chain is `a ← b ← c` (with
`a`'s outer absent) and whose class lookup yields `k`, `get_full_name`
returns the class name, a space, then the ancestor names outermost-first
joined by '.' and ending with `c`'s own name. -/
theorem full_name_outer_chain (g : ObjGraph) (a b c k fuel : Nat)
    (hk : g.get_class c = some k)
    (hc : g.get_outer c = some b) (hb : g.get_outer b = some a)
    (ha : g.get_outer a = none)
    (hbc : b ≠ c) (hac : a ≠ c) (hfuel : 2 ≤ fuel) :
    UObject.get_full_name g fuel c =
      some (fnameOf g k ++ ' ' ::
        (fnameOf g a ++ '.' :: (fnameOf g b ++ '.' :: fnameOf g c))) := by
  obtain ⟨m, rfl⟩ : ∃ m, fuel = m + 2 := ⟨fuel - 2, by omega⟩
  simp [UObject.get_full_name, hk, hc, outerLoop, hbc, hb, hac, ha]

theorem full_name_outer_chain_witness :
    UObject.get_full_name gChain 2 2 =
      some ['K', ' ', 'A', '.', 'B', '.', 'C'] :=
  full_name_outer_chain gChain 0 1 2 3 2 rfl rfl rfl rfl
    (by decide) (by decide) (by decide)

/-- Claim C4: for an object that is its own outer, `get_full_name`
terminates immediately (for every fuel bound, including zero) and returns
just the class name, a space, and the object's own name: the loop guard
`outer != this` stops the walk at once. -/
theorem full_name_self_outer (g : ObjGraph) (c k fuel : Nat)
    (hk : g.get_class c = some k) (hc : g.get_outer c = some c) :
    UObject.get_full_name g fuel c =
      some (fnameOf g k ++ ' ' :: fnameOf g c) := by
  rw [UObject.get_full_name, hk, hc, outerLoop.eq_def]
  simp

theorem full_name_self_outer_witness :
    UObject.get_full_name gSelf 0 0 = some ['K', ' ', 'C'] :=
  full_name_self_outer gSelf 0 1 0 rfl rfl

/-- Claim C8: when the class lookup returns no class, `get_full_name`
returns the empty string (for every fuel bound, so without any outer walk),
rather than failing; the graph's outer and name functions are arbitrary,
so the result does not depend on them. -/
theorem full_name_missing_class (g : ObjGraph) (obj fuel : Nat)
    (h : g.get_class obj = none) :
    UObject.get_full_name g fuel obj = some [] := by
  simp [UObject.get_full_name, h]

theorem full_name_missing_class_witness :
    UObject.get_full_name gNoClass 3 0 = some [] :=
  full_name_missing_class gNoClass 0 3 rfl

/-- Claim C5: `initialize` raises "param is null" on a null descriptor
(whatever the singleton state), constructs the singleton on a first call
with a non-null descriptor, raises "API already initialized" on any later
call leaving the original singleton unchanged; `get` raises "API not
initialized" before a successful `initialize` and otherwise returns the
existing singleton. -/
theorem singleton_contract :
    (∀ st, API.initialize st none = (st, some "param is null")) ∧
    (∀ p, API.initialize none (some p) = (some (mkAPI p), none)) ∧
    (∀ inst p, API.initialize (some inst) (some p) =
      (some inst, some "API already initialized")) ∧
    API.get none = .error "API not initialized" ∧
    (∀ inst, API.get (some inst) = .ok inst) :=
  ⟨fun _ => rfl, fun _ => rfl, fun _ _ => rfl, rfl, fun _ => rfl⟩

/-- Claim C6: over any run of wrapper operations of one entity kind, the
kind's function table is fetched from the entry point at most once: the
first operation fetches and caches it, and a run starting from a non-null
cached table performs no fetch and never changes the cache.  (A null table
pointer in the descriptor is fetched once and then faults at the caller's
immediate member access, ending the run.) -/
theorem table_fetch_at_most_once (sdkVal : Option Nat) (n : Nat) :
    (tableFetchRun sdkVal n none).snd ≤ 1 ∧
    ∀ t : Nat, tableFetchRun sdkVal n (some t) = (some t, 0) := by
  induction n with
  | zero => exact ⟨Nat.zero_le 1, fun t => rfl⟩
  | succ n ih =>
    refine ⟨?_, fun t => by simpa [tableFetchRun] using ih.2 t⟩
    match hs : sdkVal with
    | none => simp [tableFetchRun]
    | some t => simp [tableFetchRun, ih.2 t]

/-- Claim C10: `initialize` validates nothing about the descriptor's
contents: every non-null descriptor succeeds on a first call, the
constructed object holding the descriptor pointer and its `sdk` field
(the only field read), even when `sdk` and every nested function table are
null. -/
theorem initialize_no_validation :
    (∀ p, API.initialize none (some p) = (some (mkAPI p), none)) ∧
    (∀ p, (mkAPI p).m_sdk = p.sdk ∧ (mkAPI p).m_param = p) ∧
    API.initialize none
        (some { uevr_module := none, functions := none, callbacks := none,
                sdk := none }) =
      (some { m_param := { uevr_module := none, functions := none,
                           callbacks := none, sdk := none },
              m_sdk := none }, none) :=
  ⟨fun _ => rfl, fun _ => ⟨rfl, rfl⟩, rfl⟩

end UEVR
